import Mathlib

/-!
Shallow embedding of the mxtools repository (src/mxtools/eiger.py and
src/mxtools/scans.py) and proofs about it.

The scans module is embedded as plans producing ordered lists of events:
each `bps.mv(...)` call becomes one grouped write event carrying its
signal/value pairs in argument order, and `bps.sleep` a sleep event.
Python floats are modelled as rationals, EPICS signals by their dotted
Python attribute path.
-/

namespace MxTools

/-- A value written to an EPICS process variable: the code writes numbers
(modelled as rationals) or strings. -/
inductive PVal where
  | num : ℚ → PVal
  | str : String → PVal
deriving DecidableEq, Repr

/-- One register write: the target signal (by its dotted Python path) and
the value written. -/
structure Write where
  reg : String
  val : PVal
deriving DecidableEq, Repr

/-- An event yielded by a plan: a grouped `bps.mv` write set (pairs listed
in argument order) or a `bps.sleep`. -/
inductive Event where
  | mv : List Write → Event
  | sleep : ℚ → Event
deriving DecidableEq, Repr

/-- The register writes a plan issues, in program order, with the grouped
`bps.mv` events flattened. -/
def writes : List Event → List Write
  | [] => []
  | Event.mv ws :: es => ws ++ writes es
  | Event.sleep _ :: es => writes es

theorem writes_append (a b : List Event) : writes (a ++ b) = writes a ++ writes b := by
  induction a with
  | nil => rfl
  | cons e es ih => cases e <;> simp [writes, ih]

/-- Embedding of scans.setup_zebra_vector_scan: gate select, then (unless
is_still) gate width/step, then the grouped pulse configuration. -/
def setup_zebra_vector_scan (angle_start gate_width scan_width pulse_width
    pulse_step exposure_period_per_image num_images : ℚ) (is_still : Bool) :
    List Event :=
  [Event.mv [⟨"zebra.pc.gate.sel", PVal.num angle_start⟩]]
  ++ (if is_still = false then
        [Event.mv [⟨"zebra.pc.gate.width", PVal.num gate_width⟩,
                   ⟨"zebra.pc.gate.step", PVal.num scan_width⟩]]
      else [])
  ++ [Event.mv [⟨"zebra.pc.gate.num_gates", PVal.num 1⟩,
        ⟨"zebra.pc.pulse.start", PVal.num 0⟩,
        ⟨"zebra.pc.pulse.width", PVal.num pulse_width⟩,
        ⟨"zebra.pc.pulse.step", PVal.num pulse_step⟩,
        ⟨"zebra.pc.pulse.delay", PVal.num (exposure_period_per_image / 2 * 1000)⟩,
        ⟨"zebra.pc.pulse.max", PVal.num num_images⟩]]

/-- The writes setup_zebra_vector_scan issues before the is_still branch. -/
def vectorScanHead (angle_start : ℚ) : List Write :=
  [⟨"zebra.pc.gate.sel", PVal.num angle_start⟩]

/-- The writes setup_zebra_vector_scan issues after the is_still branch. -/
def vectorScanTail (pulse_width pulse_step exposure_period_per_image
    num_images : ℚ) : List Write :=
  [⟨"zebra.pc.gate.num_gates", PVal.num 1⟩,
   ⟨"zebra.pc.pulse.start", PVal.num 0⟩,
   ⟨"zebra.pc.pulse.width", PVal.num pulse_width⟩,
   ⟨"zebra.pc.pulse.step", PVal.num pulse_step⟩,
   ⟨"zebra.pc.pulse.delay", PVal.num (exposure_period_per_image / 2 * 1000)⟩,
   ⟨"zebra.pc.pulse.max", PVal.num num_images⟩]

/-- Embedding of scans.setup_zebra_vector_scan_for_raster: encoder select,
a sleep, direction and gate select, gate start, then (unless image_width
is zero) gate width/step, then the grouped pulse configuration. -/
def setup_zebra_vector_scan_for_raster (angle_start image_width
    exposure_time_per_image exposure_period_per_image detector_dead_time
    num_images scan_encoder : ℚ) : List Event :=
  [Event.mv [⟨"zebra.pc.encoder", PVal.num scan_encoder⟩],
   Event.sleep 1,
   Event.mv [⟨"zebra.pc.direction", PVal.num 0⟩,
             ⟨"zebra.pc.gate.sel", PVal.num 0⟩],
   Event.mv [⟨"zebra.pc.gate.start", PVal.num angle_start⟩]]
  ++ (if image_width ≠ 0 then
        [Event.mv [⟨"zebra.pc.gate.width", PVal.num (num_images * image_width)⟩,
                   ⟨"zebra.pc.gate.step",
                    PVal.num (num_images * image_width + (1 : ℚ) / 100)⟩]]
      else [])
  ++ [Event.mv [⟨"zebra.pc.gate.num_gates", PVal.num 1⟩,
        ⟨"zebra.pc.pulse.sel", PVal.num 1⟩,
        ⟨"zebra.pc.pulse.start", PVal.num 0⟩,
        ⟨"zebra.pc.pulse.width",
         PVal.num ((exposure_time_per_image - detector_dead_time) * 1000)⟩,
        ⟨"zebra.pc.pulse.step", PVal.num (exposure_period_per_image * 1000)⟩,
        ⟨"zebra.pc.pulse.delay",
         PVal.num (exposure_period_per_image / 2 * 1000)⟩]]

/-- The writes setup_zebra_vector_scan_for_raster issues before the
image_width guard. -/
def rasterHead (angle_start scan_encoder : ℚ) : List Write :=
  [⟨"zebra.pc.encoder", PVal.num scan_encoder⟩,
   ⟨"zebra.pc.direction", PVal.num 0⟩,
   ⟨"zebra.pc.gate.sel", PVal.num 0⟩,
   ⟨"zebra.pc.gate.start", PVal.num angle_start⟩]

/-- The writes setup_zebra_vector_scan_for_raster issues after the
image_width guard. -/
def rasterTail (exposure_time_per_image exposure_period_per_image
    detector_dead_time : ℚ) : List Write :=
  [⟨"zebra.pc.gate.num_gates", PVal.num 1⟩,
   ⟨"zebra.pc.pulse.sel", PVal.num 1⟩,
   ⟨"zebra.pc.pulse.start", PVal.num 0⟩,
   ⟨"zebra.pc.pulse.width",
    PVal.num ((exposure_time_per_image - detector_dead_time) * 1000)⟩,
   ⟨"zebra.pc.pulse.step", PVal.num (exposure_period_per_image * 1000)⟩,
   ⟨"zebra.pc.pulse.delay", PVal.num (exposure_period_per_image / 2 * 1000)⟩]

/-- A Python value appearing in scans.setup_eiger_exposure: an ophyd signal
attribute (not callable) or a number. -/
inductive PyVal where
  | signal : String → PyVal
  | num : ℚ → PyVal
deriving DecidableEq, Repr

/-- Python function application on such a value: neither an ophyd Signal
nor a number is callable, so applying one raises TypeError. -/
def callPy : PyVal → PyVal → Except String PyVal
  | PyVal.signal s, _ => Except.error ("TypeError: " ++ s ++ " is not callable")
  | PyVal.num _, _ => Except.error "TypeError: a number is not callable"

/-- bluesky's bps.mv pairs its positional arguments into (signal, value)
couples; an argument list that does not pair up that way fails. -/
def pairUp : List PyVal → Except String (List Write)
  | [] => Except.ok []
  | PyVal.signal s :: PyVal.num v :: rest =>
      (pairUp rest).map (fun ws => ⟨s, PVal.num v⟩ :: ws)
  | _ => Except.error "ValueError: bps.mv arguments do not pair into signal, value couples"

/-- A `bps.mv` call on an explicit argument list. -/
def bpsMv (args : List PyVal) : Except String Event :=
  (pairUp args).map Event.mv

/-- Embedding of scans.setup_eiger_exposure exactly as written: each bps.mv
receives the single value obtained by CALLING the signal on the exposure
argument, `bps.mv(eiger.acquire_time(exposure_time))`, rather than the
signal/value pair `bps.mv(eiger.acquire_time, exposure_time)`. -/
def setup_eiger_exposure (exposure_time exposure_period : ℚ) :
    Except String (List Event) := do
  let a1 ← callPy (PyVal.signal "eiger.acquire_time") (PyVal.num exposure_time)
  let e1 ← bpsMv [a1]
  let a2 ← callPy (PyVal.signal "eiger.acquire_period") (PyVal.num exposure_period)
  let e2 ← bpsMv [a2]
  Except.ok [e1, e2]

/-- Embedding of scans.setup_eiger_arming. The user name, group name and
all scan parameters are inputs; the trailing logger.info is not a register
write and is omitted. The name-pattern write uses the last '/'-separated
component of the file prefix, as `file_prefix.split('/')[-1]` computes. -/
def setup_eiger_arming (start width num_images exposure_per_image : ℚ)
    ( file_prefix data_directory_name : String) (file_number_start : ℚ)
    (x_beam y_beam wavelength det_distance_m : ℚ)
    (user group : String) : List Event :=
  [Event.mv [⟨"eiger.save_files", PVal.num 1⟩],
   Event.mv [⟨"eiger.file_owner", PVal.str user⟩],
   Event.mv [⟨"eiger.file_owner_grp", PVal.str group⟩],
   Event.mv [⟨"eiger.file_perms", PVal.num 420⟩],
   Event.mv [⟨"eiger.acquire_time", PVal.num exposure_per_image⟩],
   Event.mv [⟨"eiger.acquire_period", PVal.num exposure_per_image⟩],
   Event.mv [⟨"eiger.num_images", PVal.num num_images⟩],
   Event.mv [⟨"eiger.file_path", PVal.str data_directory_name⟩],
   Event.mv [⟨"eiger.fw_name_pattern",
              PVal.str ((( file_prefix.splitOn "/").getLastD "") ++ "_$id")⟩],
   Event.mv [⟨"eiger.sequence_id", PVal.num file_number_start⟩],
   Event.mv [⟨"eiger.beam_center_x", PVal.num x_beam⟩],
   Event.mv [⟨"eiger.beam_center_y", PVal.num y_beam⟩],
   Event.mv [⟨"eiger.omega_incr", PVal.num width⟩],
   Event.mv [⟨"eiger.omega_start", PVal.num start⟩],
   Event.mv [⟨"eiger.wavelength", PVal.num wavelength⟩],
   Event.mv [⟨"eiger.det_distance", PVal.num det_distance_m⟩],
   Event.mv [⟨"eiger.acquire", PVal.num 1⟩]]

/-- The file-header writes of setup_eiger_arming that precede the geometry
block: save/ownership/permissions, exposure, image count, path, name
pattern and sequence number. -/
def armingHeader (num_images exposure_per_image : ℚ)
    (name_stem data_directory_name : String) (file_number_start : ℚ)
    (user group : String) : List Write :=
  [⟨"eiger.save_files", PVal.num 1⟩,
   ⟨"eiger.file_owner", PVal.str user⟩,
   ⟨"eiger.file_owner_grp", PVal.str group⟩,
   ⟨"eiger.file_perms", PVal.num 420⟩,
   ⟨"eiger.acquire_time", PVal.num exposure_per_image⟩,
   ⟨"eiger.acquire_period", PVal.num exposure_per_image⟩,
   ⟨"eiger.num_images", PVal.num num_images⟩,
   ⟨"eiger.file_path", PVal.str data_directory_name⟩,
   ⟨"eiger.fw_name_pattern", PVal.str (name_stem ++ "_$id")⟩,
   ⟨"eiger.sequence_id", PVal.num file_number_start⟩]

/-- The six geometry / file-header writes of setup_eiger_arming that come
from detector_set_fileheader. -/
def geometryWrites (start width x_beam y_beam wavelength det_distance_m : ℚ) :
    List Write :=
  [⟨"eiger.beam_center_x", PVal.num x_beam⟩,
   ⟨"eiger.beam_center_y", PVal.num y_beam⟩,
   ⟨"eiger.omega_incr", PVal.num width⟩,
   ⟨"eiger.omega_start", PVal.num start⟩,
   ⟨"eiger.wavelength", PVal.num wavelength⟩,
   ⟨"eiger.det_distance", PVal.num det_distance_m⟩]

/-- C5: setup_zebra_vector_scan issues the writes to zebra.pc.gate.width
(gate_width) and zebra.pc.gate.step (scan_width) exactly when is_still is
False, and with is_still True it emits the identical write sequence with
only those two writes omitted; no other write depends on is_still. -/
theorem vector_scan_is_still_branch (angle_start gate_width scan_width
    pulse_width pulse_step exposure_period_per_image num_images : ℚ)
    (is_still : Bool) :
    writes (setup_zebra_vector_scan angle_start gate_width scan_width
        pulse_width pulse_step exposure_period_per_image num_images is_still) =
      vectorScanHead angle_start
        ++ (if is_still = false then
              [⟨"zebra.pc.gate.width", PVal.num gate_width⟩,
               ⟨"zebra.pc.gate.step", PVal.num scan_width⟩]
            else [])
        ++ vectorScanTail pulse_width pulse_step exposure_period_per_image
             num_images := by
  cases is_still <;>
    simp [setup_zebra_vector_scan, writes, writes_append, vectorScanHead,
      vectorScanTail]

/-- C4: setup_zebra_vector_scan_for_raster with image_width nonzero issues
the gate-width write (num_images * image_width) and gate-step write
(num_images * image_width + 0.01) at their fixed position between the
gate-start write and the pulse block, and with image_width zero those two
writes are skipped while every other write is issued in the same order. -/
theorem raster_gate_branch (angle_start image_width exposure_time_per_image
    exposure_period_per_image detector_dead_time num_images scan_encoder : ℚ) :
    writes (setup_zebra_vector_scan_for_raster angle_start image_width
        exposure_time_per_image exposure_period_per_image detector_dead_time
        num_images scan_encoder) =
      rasterHead angle_start scan_encoder
        ++ (if image_width ≠ 0 then
              [⟨"zebra.pc.gate.width", PVal.num (num_images * image_width)⟩,
               ⟨"zebra.pc.gate.step",
                PVal.num (num_images * image_width + (1 : ℚ) / 100)⟩]
            else [])
        ++ rasterTail exposure_time_per_image exposure_period_per_image
             detector_dead_time := by
  by_cases h : image_width = 0 <;>
    simp [setup_zebra_vector_scan_for_raster, writes, writes_append,
      rasterHead, rasterTail, h]

/-- C6: as written, setup_eiger_exposure never issues any register write:
its first statement calls the acquire_time signal as a function,
`bps.mv(eiger.acquire_time(exposure_time))`, which raises TypeError for
every input, so the plan aborts before any write. -/
theorem setup_eiger_exposure_raises (exposure_time exposure_period : ℚ) :
    setup_eiger_exposure exposure_time exposure_period =
      Except.error "TypeError: eiger.acquire_time is not callable" := rfl

/-- C7: the register writes of setup_eiger_arming are exactly the
file-header block, then the six geometry writes, then the arming write
eiger.acquire := 1 as the last write of the sequence. -/
theorem arming_acquire_last (start width num_images exposure_per_image : ℚ)
    ( file_prefix data_directory_name : String) (file_number_start : ℚ)
    (x_beam y_beam wavelength det_distance_m : ℚ) (user group : String) :
    writes (setup_eiger_arming start width num_images exposure_per_image
        file_prefix data_directory_name file_number_start
        x_beam y_beam wavelength det_distance_m user group) =
      armingHeader num_images exposure_per_image
          (( file_prefix.splitOn "/").getLastD "") data_directory_name
          file_number_start user group
        ++ geometryWrites start width x_beam y_beam wavelength det_distance_m
        ++ [⟨"eiger.acquire", PVal.num 1⟩] := by
  simp [setup_eiger_arming, writes, armingHeader, geometryWrites]

/-! Embedding of src/mxtools/eiger.py. Python dictionaries over string keys
are association lists with Python's update semantics: assignment replaces
the value of a present key in place and appends a fresh key at the end. -/

/-- Python `d[k] = v` on a string-keyed dictionary. -/
def dictSet : List (String × ℤ) → String → ℤ → List (String × ℤ)
  | [], k, v => [(k, v)]
  | (k0, v0) :: rest, k, v =>
      if k0 = k then (k0, v) :: rest else (k0, v0) :: dictSet rest k v

/-- Python `d.get(k)`: the value of key k, when present. -/
def dictGet : List (String × ℤ) → String → Option ℤ
  | [], _ => none
  | (k0, v0) :: rest, k => if k0 = k then some v0 else dictGet rest k

/-- Python `k in d`. -/
def dictHas (d : List (String × ℤ)) (k : String) : Bool :=
  (dictGet d k).isSome

theorem dictGet_dictSet_self (d : List (String × ℤ)) (k : String) (v : ℤ) :
    dictGet (dictSet d k v) k = some v := by
  induction d with
  | nil => simp [dictSet, dictGet]
  | cons p rest ih =>
      by_cases h : p.1 = k <;> simp [dictSet, dictGet, h, ih]

theorem dictGet_dictSet_ne (d : List (String × ℤ)) (k k0 : String) (v : ℤ)
    (h : k0 ≠ k) : dictGet (dictSet d k v) k0 = dictGet d k0 := by
  have hk : ¬ (k = k0) := fun hh => h (Eq.symm hh)
  induction d with
  | nil => simp [dictSet, dictGet, hk]
  | cons p rest ih =>
      by_cases hp : p.1 = k
      · simp [dictSet, dictGet, hp, hk]
      · simp [dictSet, dictGet, hp, ih]

/-- A Resource opened by stage: the resolved base filename and the
images-per-file count recorded in the resource kwargs. -/
structure Resource where
  fn : String
  images_per_file : ℤ
deriving DecidableEq, Repr

/-- The attributes of EigerSimulatedFilePlugin that generate_datum reads:
sequence_id_offset and frame_num as __init__ sets them, and the Resource
the FileStoreBase machinery holds open after stage (none before stage). -/
structure FilePluginState where
  sequence_id_offset : ℤ
  filestore_spec : String
  frame_num : Option ℤ
  resource : Option Resource
deriving DecidableEq, Repr

/-- FilePluginState as __init__ leaves it, before any stage: offset 1,
spec "AD_EIGER2", no frame number, no open Resource. -/
def initFilePlugin : FilePluginState :=
  { sequence_id_offset := 1
    filestore_spec := "AD_EIGER2"
    frame_num := none
    resource := none }

/-- A Datum produced under the open Resource. -/
structure Datum where
  resource : Resource
  key : String
  timestamp : ℚ
  datum_kwargs : List (String × ℤ)
deriving DecidableEq, Repr

/-- Modelled from the spec: FileStoreBase.generate_datum, the ophyd parent
class hook that is not part of this repository, produces a new Datum under
the currently open Resource and "fails (propagates upstream) if called
before stage() has opened a Resource". -/
def fileStoreGenerateDatum (p : FilePluginState) (key : String)
    (timestamp : ℚ) (datum_kwargs : List (String × ℤ)) : Except String Datum :=
  match p.resource with
  | none => Except.error "generate_datum before stage(): no Resource is open"
  | some r =>
      Except.ok { resource := r, key := key, timestamp := timestamp,
                  datum_kwargs := datum_kwargs }

/-- The seq_id EigerSimulatedFilePlugin.generate_datum computes:
`int(self.sequence_id_offset) + int(self.sequence_id.get())`. -/
def gen_seq_id (p : FilePluginState) (sequence_id : ℤ) : ℤ :=
  p.sequence_id_offset + sequence_id

/-- The in-place mutation generate_datum applies to the caller's
datum_kwargs: `datum_kwargs.update(seq_id)` always, then
`datum_kwargs.update(frame_num)` when self.frame_num is not None. -/
def genDatumKwargs (p : FilePluginState) (sequence_id : ℤ)
    (datum_kwargs : List (String × ℤ)) : List (String × ℤ) :=
  let kw := dictSet datum_kwargs "seq_id" (gen_seq_id p sequence_id)
  match p.frame_num with
  | some f => dictSet kw "frame_num" f
  | none => kw

/-- Embedding of EigerSimulatedFilePlugin.generate_datum: stash the
offset-corrected sequence counter (and frame_num when set) into
datum_kwargs, then delegate to the parent class. `sequence_id` is the
value the sequence_id signal reports at the moment of the call. -/
def generate_datum (p : FilePluginState) (sequence_id : ℤ) (key : String)
    (timestamp : ℚ) (datum_kwargs : List (String × ℤ)) : Except String Datum :=
  fileStoreGenerateDatum p key timestamp (genDatumKwargs p sequence_id datum_kwargs)

/-- C1: for every sequence-counter value n ≥ 0 that the sequence_id signal
reports at the moment generate_datum runs on a staged plugin (whose offset
__init__ set to 1), the Datum produced carries seq_id = n + 1. -/
theorem generate_datum_seq_id (r : Resource) (n : ℤ) (key : String)
    (timestamp : ℚ) (datum_kwargs : List (String × ℤ)) (hn : 0 ≤ n) :
    ∃ d : Datum,
      generate_datum { initFilePlugin with resource := some r } n key
          timestamp datum_kwargs = Except.ok d ∧
        dictGet d.datum_kwargs "seq_id" = some (n + 1) := by
  refine ⟨_, rfl, ?_⟩
  simp [genDatumKwargs, initFilePlugin, gen_seq_id, dictGet_dictSet_self,
    Int.add_comm]

/-- Witness for C1 at the counter value 5 on a concrete staged plugin. -/
theorem generate_datum_seq_id_witness :
    ∃ d : Datum,
      generate_datum { initFilePlugin with resource := some ⟨"/data/a", 100⟩ }
          5 "primary" 0 [] = Except.ok d ∧
        dictGet d.datum_kwargs "seq_id" = some (5 + 1) :=
  generate_datum_seq_id ⟨"/data/a", 100⟩ 5 "primary" 0 [] (by decide)

/-- C2: generate_datum called on a plugin on which stage() has not opened a
Resource fails with an error, for every key, timestamp and kwargs, rather
than returning a Datum with no owning Resource. -/
theorem generate_datum_before_stage (p : FilePluginState) (n : ℤ)
    (key : String) (timestamp : ℚ) (datum_kwargs : List (String × ℤ))
    (h : p.resource = none) :
    generate_datum p n key timestamp datum_kwargs =
      Except.error "generate_datum before stage(): no Resource is open" := by
  simp [generate_datum, fileStoreGenerateDatum, h]

/-- Witness for C2: the freshly initialised plugin has no open Resource. -/
theorem generate_datum_before_stage_witness :
    generate_datum initFilePlugin 0 "primary" 0 [] =
      Except.error "generate_datum before stage(): no Resource is open" :=
  generate_datum_before_stage initFilePlugin 0 "primary" 0 [] rfl

/-- C9 counterexample: with the plugin's frame_num equal to None and a
caller dictionary that already holds a "frame_num" key, the dictionary
still holds "frame_num" after generate_datum's in-place update, so holding
"frame_num" afterwards is not equivalent to the plugin's frame_num being
set. -/
theorem genDatumKwargs_frame_num_cex :
    dictHas (genDatumKwargs initFilePlugin 0 [("frame_num", 5)]) "frame_num"
        = true ∧
      initFilePlugin.frame_num = none := by
  constructor
  · decide
  · rfl

/-- C9 (amended): generate_datum's in-place update of the caller's
datum_kwargs always leaves a "seq_id" key; it leaves a "frame_num" key
whenever the plugin's frame_num is not None, and a "frame_num" key present
afterwards comes either from the plugin's frame_num or from the caller's
own dictionary; every key other than "seq_id" and "frame_num" keeps the
value it had before. -/
theorem genDatumKwargs_keys (p : FilePluginState) (n : ℤ)
    (datum_kwargs : List (String × ℤ)) :
    dictHas (genDatumKwargs p n datum_kwargs) "seq_id" = true ∧
      (p.frame_num ≠ none →
        dictHas (genDatumKwargs p n datum_kwargs) "frame_num" = true) ∧
      (dictHas (genDatumKwargs p n datum_kwargs) "frame_num" = true →
        p.frame_num ≠ none ∨ dictHas datum_kwargs "frame_num" = true) ∧
      (∀ k : String, k ≠ "seq_id" → k ≠ "frame_num" →
        dictGet (genDatumKwargs p n datum_kwargs) k = dictGet datum_kwargs k) := by
  unfold genDatumKwargs
  cases hf : p.frame_num with
  | none =>
      refine ⟨?_, ?_, ?_, ?_⟩
      · simp [dictHas, dictGet_dictSet_self]
      · intro hc; exact absurd rfl hc
      · intro hhas
        right
        simpa [dictHas,
          dictGet_dictSet_ne _ _ _ _
            (by decide : ("frame_num" : String) ≠ "seq_id")] using hhas
      · intro k hk1 hk2
        exact dictGet_dictSet_ne _ _ _ _ hk1
  | some f =>
      refine ⟨?_, ?_, ?_, ?_⟩
      · simp [dictHas,
          dictGet_dictSet_ne _ _ _ _
            (by decide : ("seq_id" : String) ≠ "frame_num"),
          dictGet_dictSet_self]
      · intro _
        simp [dictHas, dictGet_dictSet_self]
      · intro _
        left
        simp
      · intro k hk1 hk2
        rw [dictGet_dictSet_ne _ _ _ _ hk2, dictGet_dictSet_ne _ _ _ _ hk1]

/-- A calendar date, the part of datetime.now() that strftime can render
here. -/
structure Date where
  year : Nat
  month : Nat
  day : Nat
deriving DecidableEq, Repr

/-- Two-digit zero padding, as strftime renders %m and %d. -/
def pad2 (n : Nat) : String :=
  if n < 10 then "0" ++ toString n else toString n

/-- strftime over a character list: %Y, %m and %d are replaced by the date
fields and every other character is copied through unchanged — in
particular, brace-delimited text such as "{date}" holds no percent sign,
is no strftime directive, and passes through literally. -/
def strftimeChars (d : Date) : List Char → String
  | [] => ""
  | '%' :: 'Y' :: rest => toString d.year ++ strftimeChars d rest
  | '%' :: 'm' :: rest => pad2 d.month ++ strftimeChars d rest
  | '%' :: 'd' :: rest => pad2 d.day ++ strftimeChars d rest
  | c :: rest => String.singleton c ++ strftimeChars d rest

/-- Python's datetime.strftime on a template string. -/
def strftime (d : Date) (template : String) : String :=
  strftimeChars d template.data

/-- PurePath(base) / child: pathlib drops redundant trailing slashes of
the base before joining with a single slash. -/
def purePathJoin (base child : String) : String :=
  (base.dropRightWhile (fun c => c = '/')) ++ "/" ++ child

/-- The registers and the Resource that stage() produces. -/
structure StageResult where
  file_path : String
  file_write_name_pattern : String
  resource : Resource
deriving DecidableEq, Repr

/-- Embedding of EigerSimulatedFilePlugin.stage: res_uid is the fresh
new_short_uid(), today the current date, images_per_file the value the
file_write_images_per_file signal reports back. The file_path register
gets strftime(write_path_template) with "/" appended, the name pattern
register gets res_uid + "_$id", and the Resource records
PurePath(file_path) / res_uid and the images-per-file count. -/
def stage (write_path_template : String) (today : Date) (res_uid : String)
    (images_per_file : ℤ) : StageResult :=
  let write_path := strftime today write_path_template
  let fp := write_path ++ "/"
  { file_path := fp
    file_write_name_pattern := res_uid ++ "_$id"
    resource := { fn := purePathJoin fp res_uid
                  images_per_file := images_per_file } }

/-- C3 counterexample: with write_path_template "/data/{date}/" and the
current date 2024-01-01, stage writes file_path "/data/{date}//" — the
brace-delimited "{date}" is no strftime directive and passes through
unchanged, and stage appends a further slash — not "/data/2024-01-01/". -/
theorem stage_date_template_cex :
    (stage "/data/{date}/" ⟨2024, 1, 1⟩ "abc123" 100).file_path
        = "/data/{date}//" ∧
      (stage "/data/{date}/" ⟨2024, 1, 1⟩ "abc123" 100).file_path
        ≠ "/data/2024-01-01/" := by
  constructor <;> decide

/-- C3 (amended): with the template in strftime form and no trailing
slash, "/data/%Y-%m-%d", and the current date 2024-01-01, stage writes
file_path "/data/2024-01-01/" and the file-write name pattern uid + "_$id"
with uid the freshly generated identifier. -/
theorem stage_strftime_template (res_uid : String) (images_per_file : ℤ) :
    (stage "/data/%Y-%m-%d" ⟨2024, 1, 1⟩ res_uid images_per_file).file_path
        = "/data/2024-01-01/" ∧
      (stage "/data/%Y-%m-%d" ⟨2024, 1, 1⟩ res_uid
          images_per_file).file_write_name_pattern = res_uid ++ "_$id" := by
  constructor
  · show strftime ⟨2024, 1, 1⟩ "/data/%Y-%m-%d" ++ "/" = "/data/2024-01-01/"
    decide
  · rfl

/-- The detector state EigerBaseV26.unstage touches: the
cam.manual_trigger register. -/
structure DetectorState where
  manual_trigger : ℤ
deriving DecidableEq, Repr

/-- Modelled from the spec: ophyd Device.unstage, the parent hook that is
not part of this repository, restores the staged configuration signals and
does not raise when called repeatedly; cam.manual_trigger is not among the
staged signals of this detector, so the parent leaves it as is. -/
def deviceUnstage (s : DetectorState) : Except String DetectorState :=
  Except.ok s

/-- Embedding of EigerBaseV26.unstage: set cam.manual_trigger to 0, then
call the parent unstage. -/
def unstage (s : DetectorState) : Except String DetectorState :=
  deviceUnstage { s with manual_trigger := 0 }

/-- C8: calling unstage twice in succession does not raise and leaves the
manual_trigger register holding 0, from any starting state. -/
theorem unstage_twice (s : DetectorState) :
    (unstage s).bind unstage = Except.ok { manual_trigger := 0 } := rfl

/-- Embedding of EigerSingleTriggerV26.read: with streaming the parent
result is queried and only the image-name entry kept (Python's
read_dict[key], raising KeyError when the key is missing); without
streaming the full parent result is returned unchanged. `parent` stands
for what super().read() returns, an ordered dictionary modelled as an
association list. -/
def eigerRead {α : Type} (image_name : String) (parent : List (String × α))
    (streaming : Bool) : Except String (List (String × α)) :=
  if streaming then
    match parent.lookup image_name with
    | some v => Except.ok [(image_name, v)]
    | none => Except.error "KeyError"
  else Except.ok parent

/-- Embedding of EigerSingleTriggerV26.describe, which duplicates the read
logic over the parent describe result. -/
def eigerDescribe {α : Type} (image_name : String)
    (parent : List (String × α)) (streaming : Bool) :
    Except String (List (String × α)) :=
  if streaming then
    match parent.lookup image_name with
    | some v => Except.ok [(image_name, v)]
    | none => Except.error "KeyError"
  else Except.ok parent

/-- C10: when the parent results carry the image name, read and describe
with streaming=True return the one-entry ordered dictionary at the image
name whose value is that key's entry of the full parent result, and with
streaming=False they return the full parent result unchanged. -/
theorem read_describe_streaming {α : Type} (image_name : String)
    (parent parent_desc : List (String × α)) (v w : α)
    (hv : parent.lookup image_name = some v)
    (hw : parent_desc.lookup image_name = some w) :
    eigerRead image_name parent true = Except.ok [(image_name, v)] ∧
      eigerRead image_name parent false = Except.ok parent ∧
      eigerDescribe image_name parent_desc true = Except.ok [(image_name, w)] ∧
      eigerDescribe image_name parent_desc false = Except.ok parent_desc := by
  refine ⟨?_, rfl, ?_, rfl⟩ <;> simp [eigerRead, eigerDescribe, hv, hw]

/-- Witness for C10 on concrete two-entry parent results. -/
theorem read_describe_streaming_witness :
    eigerRead "eiger_single_image" [("eiger_single_image", (7 : ℤ)), ("s", 9)]
        true = Except.ok [("eiger_single_image", 7)] ∧
      eigerRead "eiger_single_image" [("eiger_single_image", (7 : ℤ)), ("s", 9)]
        false = Except.ok [("eiger_single_image", 7), ("s", 9)] ∧
      eigerDescribe "eiger_single_image" [("eiger_single_image", (3 : ℤ))]
        true = Except.ok [("eiger_single_image", 3)] ∧
      eigerDescribe "eiger_single_image" [("eiger_single_image", (3 : ℤ))]
        false = Except.ok [("eiger_single_image", 3)] :=
  read_describe_streaming "eiger_single_image" _ _ 7 3 (by decide) (by decide)

end MxTools
